import Mathlib

/-!
Verification development for the hydration annotation protocol of the
stencil repository: the server-side annotator's marker output and the
client-side reconciler's hydrated output, as pinned down by the
hydration test suite (src/runtime/test/hydrate-shadow-child.spec.tsx).

DOM trees are embedded as `VNode` values transcribed from the expected
server-hydrated and client-hydrated markup in the test suite (whitespace
normalized, exactly as the suite's `toEqualHtml` matcher does).  The
mock shadow root serializes as a `mock:shadow-root` element, and it is
embedded literally as such.
-/

/-- A parsed DOM node: element with tag, attributes and children, text, or
comment.  Text and comment nodes carry no attributes, mirroring markup in
which only elements can hold attributes. -/
inductive VNode where
  | elem (tag : String) (attrs : List (String × String)) (children : List VNode)
  | text (s : String)
  | comment (s : String)

def com (s : String) : VNode := VNode.comment s

def txt (s : String) : VNode := VNode.text s

def el (tag : String) (attrs : List (String × String)) (children : List VNode) : VNode :=
  VNode.elem tag attrs children

/-- Prefix test on the underlying character lists. -/
def strStartsWith (s p : String) : Bool := p.data.isPrefixOf s.data

/-- True when the string ends with a '.' character. -/
def endsWithDot (s : String) : Bool := s.data.getLast? == some '.'

/-- Comment text of one of the five hydration marker kinds. -/
def isMarkerText (s : String) : Bool :=
  strStartsWith s "r." || strStartsWith s "t." || strStartsWith s "c." ||
  strStartsWith s "s." || strStartsWith s "o."

/-- All comment texts in a forest, document (preorder) order.  Fueled
recursion; the fuel bounds the tree depth. -/
def allComments : Nat → List VNode → List String
  | 0, _ => []
  | _, [] => []
  | f+1, n :: ns =>
    (match n with
     | VNode.comment s => [s]
     | VNode.elem _ _ cs => allComments f cs
     | _ => []) ++ allComments f ns

/-- All elements (tag, attributes) in a forest, document (preorder) order. -/
def allElems : Nat → List VNode → List (String × List (String × String))
  | 0, _ => []
  | _, [] => []
  | f+1, n :: ns =>
    (match n with
     | VNode.elem t a cs => (t, a) :: allElems f cs
     | _ => []) ++ allElems f ns

/-- First element with the given tag, preorder. -/
def findElem : Nat → String → List VNode → Option VNode
  | 0, _, _ => none
  | _, _, [] => none
  | f+1, tag, n :: ns =>
    match n with
    | VNode.elem t a cs =>
      if t == tag then some (VNode.elem t a cs)
      else match findElem f tag cs with
        | some r => some r
        | none => findElem f tag ns
    | _ => findElem f tag ns

/-- Children of the first element with the given tag. -/
def childListOf (v : VNode) (tag : String) : Option (List VNode) :=
  match findElem 100 tag [v] with
  | some (VNode.elem _ _ cs) => some cs
  | _ => none

/-- The `c-id` attribute of the first element with the given tag. -/
def findCId (v : VNode) (tag : String) : Option String :=
  match findElem 100 tag [v] with
  | some (VNode.elem _ a _) => a.lookup "c-id"
  | _ => none

/-- Host ids in document order: the `s-id` attribute values of all elements
carrying one, in preorder. -/
def sIdList (v : VNode) : List String :=
  (allElems 100 [v]).filterMap (fun e => e.2.lookup "s-id")

/-- Expected host-id sequence 1, 2, ..., n as strings. -/
def sIdSeq (n : Nat) : List String := (List.range n).map (fun i => toString (i + 1))

/-- Every element carrying an `s-id` also carries `class="hydrated"`. -/
def hostsHydratedOk (v : VNode) : Bool :=
  (allElems 100 [v]).all (fun e => e.2.lookup "s-id" == none || e.2.contains ("class", "hydrated"))

/-!
The nine scenarios of the hydration suite, transcribed from the expected
markup in src/runtime/test/hydrate-shadow-child.spec.tsx.  For each
scenario, `serverHydrated_*` is the expected server-annotated tree and
`clientHydrated_*` the expected client-hydrated tree.
-/

/-- Scenario "no slot": shadow cmp-a rendering a paragraph, server side. -/
def serverHydrated_noSlot : VNode :=
  el "cmp-a" [("class", "hydrated"), ("s-id", "1")]
    [com "r.1",
     el "p" [("c-id", "1.0.0.0")] [com "t.1.1.1.0", txt "Hello"]]

/-- Scenario "no slot", client side. -/
def clientHydrated_noSlot : VNode :=
  el "cmp-a" [("class", "hydrated")]
    [el "mock:shadow-root" [] [el "p" [] [txt "Hello"]]]

/-- Scenario "nested cmp-b w/ shadow, text slot", server side. -/
def serverHydrated_textSlot : VNode :=
  el "cmp-a" [("class", "hydrated"), ("s-id", "1")]
    [com "r.1",
     el "cmp-b" [("class", "hydrated"), ("c-id", "1.0.0.0"), ("s-id", "2")]
       [com "r.2", com "o.1.1.", com "s.2.0.0.0.", com "t.1.1.1.0", txt "light-dom"]]

/-- Scenario "nested cmp-b w/ shadow, text slot", client side. -/
def clientHydrated_textSlot : VNode :=
  el "cmp-a" [("class", "hydrated")]
    [com "r.1",
     el "cmp-b" [("class", "hydrated")]
       [el "mock:shadow-root" [] [el "slot" [] []],
        txt "light-dom"]]

/-- Scenario "nested cmp-b w/ shadow, shadow element header", server side. -/
def serverHydrated_elemHeader : VNode :=
  el "cmp-a" [("class", "hydrated"), ("s-id", "1")]
    [com "r.1",
     el "cmp-b" [("class", "hydrated"), ("c-id", "1.0.0.0"), ("s-id", "2")]
       [com "r.2", el "header" [("c-id", "2.0.0.0")] [], com "s.2.1.0.1."]]

/-- Scenario "nested cmp-b w/ shadow, shadow element header", client side. -/
def clientHydrated_elemHeader : VNode :=
  el "cmp-a" [("class", "hydrated")]
    [com "r.1",
     el "cmp-b" [("class", "hydrated")]
       [el "mock:shadow-root" [] [el "header" [] [], el "slot" [] []]]]

/-- Scenario "nested cmp-b w/ shadow, shadow text header", server side. -/
def serverHydrated_textHeader : VNode :=
  el "cmp-a" [("class", "hydrated"), ("s-id", "1")]
    [com "r.1",
     el "cmp-b" [("class", "hydrated"), ("c-id", "1.0.0.0"), ("s-id", "2")]
       [com "r.2", com "t.2.0.0.0", txt "shadow-header", com "s.2.1.0.1."]]

/-- Scenario "nested cmp-b w/ shadow, shadow text header", client side. -/
def clientHydrated_textHeader : VNode :=
  el "cmp-a" [("class", "hydrated")]
    [com "r.1",
     el "cmp-b" [("class", "hydrated")]
       [el "mock:shadow-root" [] [txt "shadow-header", el "slot" [] []]]]

/-- Scenario "nested shadow, text slot, header", server side. -/
def serverHydrated_textSlotHeader : VNode :=
  el "cmp-a" [("class", "hydrated"), ("s-id", "1")]
    [com "r.1",
     el "cmp-b" [("class", "hydrated"), ("c-id", "1.0.0.0"), ("s-id", "2")]
       [com "r.2", com "o.1.1.", el "header" [("c-id", "2.0.0.0")] [],
        com "s.2.1.0.1.", com "t.1.1.1.0", txt "light-dom"]]

/-- Scenario "nested shadow, text slot, header", client side. -/
def clientHydrated_textSlotHeader : VNode :=
  el "cmp-a" [("class", "hydrated")]
    [com "r.1",
     el "cmp-b" [("class", "hydrated")]
       [el "mock:shadow-root" [] [el "header" [] [], el "slot" [] []],
        txt "light-dom"]]

/-- Scenario "nested cmp-b w/ shadow, shadow header text, shadow footer elm
w/ text", server side. -/
def serverHydrated_headerTextFooter : VNode :=
  el "cmp-a" [("class", "hydrated"), ("s-id", "1")]
    [com "r.1",
     el "cmp-b" [("class", "hydrated"), ("c-id", "1.0.0.0"), ("s-id", "2")]
       [com "r.2", com "t.2.0.0.0", txt "shadow-header",
        el "footer" [("c-id", "2.1.0.1")] [com "t.2.2.1.0", txt "shadow-footer"]]]

/-- Scenario "nested cmp-b w/ shadow, shadow header text, shadow footer elm
w/ text", client side. -/
def clientHydrated_headerTextFooter : VNode :=
  el "cmp-a" [("class", "hydrated")]
    [com "r.1",
     el "cmp-b" [("class", "hydrated")]
       [el "mock:shadow-root" []
          [txt "shadow-header", el "footer" [] [txt "shadow-footer"]]]]

/-- Scenario "nested, text slot, header/footer", server side. -/
def serverHydrated_headerFooter : VNode :=
  el "cmp-a" [("class", "hydrated"), ("s-id", "1")]
    [com "r.1",
     el "cmp-b" [("class", "hydrated"), ("c-id", "1.0.0.0"), ("s-id", "2")]
       [com "r.2", com "o.1.1.", el "header" [("c-id", "2.0.0.0")] [],
        com "s.2.1.0.1.", com "t.1.1.1.0", txt "light-dom",
        el "footer" [("c-id", "2.2.0.2")] []]]

/-- Scenario "nested, text slot, header/footer", client side. -/
def clientHydrated_headerFooter : VNode :=
  el "cmp-a" [("class", "hydrated")]
    [com "r.1",
     el "cmp-b" [("class", "hydrated")]
       [el "mock:shadow-root" [] [el "header" [] [], el "slot" [] [], el "footer" [] []],
        txt "light-dom"]]

/-- Scenario "root level element, non-shadow, shadow, shadow", server side. -/
def serverHydrated_rootLevel : VNode :=
  el "cmp-a" [("class", "hydrated"), ("s-id", "1")]
    [com "r.1", com "o.0.2", com "s.1.0.0.0.",
     el "cmp-b" [("c-id", "0.2"), ("class", "hydrated"), ("s-id", "2"), ("s-sn", "")]
       [com "r.2", com "o.0.4.", com "o.0.5.",
        el "section" [("c-id", "2.0.0.0")]
          [com "s.2.1.1.0.", com "t.0.4", txt "cmp-b-top-text",
           el "cmp-c" [("c-id", "0.5"), ("class", "hydrated"), ("s-id", "3"), ("s-sn", "")]
             [com "r.3",
              el "article" [("c-id", "3.0.0.0")] [com "t.3.1.1.0", txt "cmp-c"]]]]]

/-- Scenario "root level element, non-shadow, shadow, shadow", client side. -/
def clientHydrated_rootLevel : VNode :=
  el "cmp-a" [("class", "hydrated")]
    [com "r.1", com "s.1.0.0.0.",
     el "cmp-b" [("class", "hydrated")]
       [el "mock:shadow-root" [] [el "section" [] [el "slot" [] []]],
        txt "cmp-b-top-text",
        el "cmp-c" [("class", "hydrated")]
          [el "mock:shadow-root" [] [el "article" [] [txt "cmp-c"]]]]]

/-- Scenario "preserves all nodes", server side. -/
def serverHydrated_preserves : VNode :=
  el "cmp-a" [("class", "hydrated"), ("s-id", "1")]
    [com "r.1", com "o.0.1.", com "o.0.2.", com "o.0.4.", com "o.0.6.", com "o.0.7.",
     el "slot-fb" [("c-id", "1.0.0.0"), ("hidden", ""), ("s-sn", "")]
       [com "t.1.1.1.0", txt "Shadow Content"],
     com "t.0.1", txt "A text node",
     com "c.0.2", com " a comment ",
     el "div" [("c-id", "0.4"), ("s-sn", "")] [txt "An element"],
     com "c.0.6", com " another comment ",
     com "t.0.7", txt "Another text node"]

/-- Scenario "preserves all nodes", client side. -/
def clientHydrated_preserves : VNode :=
  el "cmp-a" [("class", "hydrated")]
    [el "mock:shadow-root" [] [el "slot" [] [txt "Shadow Content"]],
     txt "A text node",
     com " a comment ",
     el "div" [] [txt "An element"],
     com " another comment ",
     txt "Another text node"]

/-- All nine expected server-annotated trees, in suite order. -/
def allServerTrees : List VNode :=
  [serverHydrated_noSlot, serverHydrated_textSlot, serverHydrated_elemHeader,
   serverHydrated_textHeader, serverHydrated_textSlotHeader,
   serverHydrated_headerTextFooter, serverHydrated_headerFooter,
   serverHydrated_rootLevel, serverHydrated_preserves]

/-- All nine expected client-hydrated trees, in suite order. -/
def allClientTrees : List VNode :=
  [clientHydrated_noSlot, clientHydrated_textSlot, clientHydrated_elemHeader,
   clientHydrated_textHeader, clientHydrated_textSlotHeader,
   clientHydrated_headerTextFooter, clientHydrated_headerFooter,
   clientHydrated_rootLevel, clientHydrated_preserves]

/-!
Render trees: the per-component output of a `render()` call, transcribed
from the component classes in the test suite.  A `<slot>` is an ordinary
element here (`relem "slot" fallback`).
-/

/-- A node of a component's render tree: element (tag and children) or text. -/
inductive RNode where
  | relem (tag : String) (children : List RNode)
  | rtext (s : String)

/-- Render tree of cmp-a in scenario "no slot": a paragraph with text. -/
def rt_noSlot_cmpA : List RNode := [RNode.relem "p" [RNode.rtext "Hello"]]

/-- Render tree of cmp-a in the text-slot scenarios: cmp-b host wrapping
the light-dom text. -/
def rt_textSlot_cmpA : List RNode := [RNode.relem "cmp-b" [RNode.rtext "light-dom"]]

/-- Render tree of cmp-b in scenario "text slot": a single default slot. -/
def rt_textSlot_cmpB : List RNode := [RNode.relem "slot" []]

/-- Render tree of cmp-a in the header scenarios: an empty cmp-b host. -/
def rt_plain_cmpA : List RNode := [RNode.relem "cmp-b" []]

/-- Render tree of cmp-b with a header element then a slot. -/
def rt_elemHeader_cmpB : List RNode := [RNode.relem "header" [], RNode.relem "slot" []]

/-- Render tree of cmp-b with a header text then a slot. -/
def rt_textHeader_cmpB : List RNode := [RNode.rtext "shadow-header", RNode.relem "slot" []]

/-- Render tree of cmp-b with header text and a footer element with text. -/
def rt_headerTextFooter_cmpB : List RNode :=
  [RNode.rtext "shadow-header", RNode.relem "footer" [RNode.rtext "shadow-footer"]]

/-- Render tree of cmp-b with header, slot and footer elements. -/
def rt_headerFooter_cmpB : List RNode :=
  [RNode.relem "header" [], RNode.relem "slot" [], RNode.relem "footer" []]

/-- Render tree of cmp-a in scenario "root level": a single default slot. -/
def rt_rootLevel_cmpA : List RNode := [RNode.relem "slot" []]

/-- Render tree of cmp-b in scenario "root level": a section wrapping a slot. -/
def rt_rootLevel_cmpB : List RNode := [RNode.relem "section" [RNode.relem "slot" []]]

/-- Render tree of cmp-c in scenario "root level": an article with text. -/
def rt_rootLevel_cmpC : List RNode := [RNode.relem "article" [RNode.rtext "cmp-c"]]

/-- Render tree of cmp-a in scenario "preserves all nodes": a default slot
with fallback text. -/
def rt_preserves_cmpA : List RNode := [RNode.relem "slot" [RNode.rtext "Shadow Content"]]

/-- Content-id string of a rendered node: host id, depth-first ordinal of the
node within its host's render tree, depth below the host root, and sibling
index, joined by dots.  This is the scheme the server-annotated markup in
the test suite exhibits on every `c-id`, `t.` and `s.` annotation. -/
def cidStr (hostId n d i : Nat) : String :=
  toString hostId ++ "." ++ toString n ++ "." ++ toString d ++ "." ++ toString i

/-- Modelled from the spec: the Path Addresser walk over a host's render
tree (the addresser itself is not among the sampled sources; its output
format is fixed by the annotated markup in the test suite).  Arguments:
depth below the host root, next depth-first ordinal, sibling index, path of
sibling indices leading to the current child list, and the child list.
Returns the entries (sibling-index path, node label, id string) in
depth-first order together with the ordinal counter after the walk.  Text
nodes are labelled `t:` followed by their content; elements are labelled by
tag.  Fueled recursion on the first argument. -/
def annWalk (hostId : Nat) :
    Nat → Nat → Nat → Nat → List Nat → List RNode →
      (List (List Nat × String × String) × Nat)
  | 0, _, n, _, _, _ => ([], n)
  | _, _, n, _, _, [] => ([], n)
  | f+1, d, n, i, pre, c :: cs =>
    match c with
    | RNode.rtext s =>
      let entry := (pre ++ [i], "t:" ++ s, cidStr hostId n d i)
      let rest := annWalk hostId f d (n + 1) (i + 1) pre cs
      (entry :: rest.1, rest.2)
    | RNode.relem tag ch =>
      let entry := (pre ++ [i], tag, cidStr hostId n d i)
      let sub := annWalk hostId f (d + 1) (n + 1) 0 (pre ++ [i]) ch
      let rest := annWalk hostId f d sub.2 (i + 1) pre cs
      (entry :: (sub.1 ++ rest.1), rest.2)

/-- All (label, id) pairs the addresser assigns within one host. -/
def annEntries (hostId : Nat) (rt : List RNode) : List (String × String) :=
  ((annWalk hostId 100 0 0 0 [] rt).1).map (fun e => (e.2.1, e.2.2))

/-- Counter state of the Id Allocators, threaded through an annotator or
reconciler invocation (spec section 4.5). -/
structure AddrState where
  nextHostId : Nat

/-- Initial allocator state: host ids start at 1. -/
def initAddr : AddrState := AddrState.mk 1

/-- Resetting the allocator state at the start of an invocation
(spec section 4.5: counters are reset at the start of each run). -/
def resetAddr (_ : AddrState) : AddrState := AddrState.mk 1

/-- Modelled from the spec: the Path Addresser as invoked on one node —
the id string assigned to the node at the given sibling-index position of
the host's render tree, starting from the given allocator state. -/
def pathAt (st : AddrState) (rt : List RNode) (pos : List Nat) : Option String :=
  (((annWalk st.nextHostId 100 0 0 0 [] rt).1).lookup pos).map (fun e => e.2)

/-- The path form asserted by the spec's data model (section 3): the host id
followed by the per-level sibling indices of the node, dot-joined.  Second
definition for refinement comparison against the ids in the markup. -/
def specLevelPath (hostId : Nat) (ixs : List Nat) : String :=
  toString hostId ++ (ixs.map (fun i => "." ++ toString i)).foldl (· ++ ·) ""

/-- The render-tree node at a sibling-index path, if any. -/
def nodeAtPos : Nat → List RNode → List Nat → Option RNode
  | 0, _, _ => none
  | _, _, [] => none
  | f+1, cs, i :: rest =>
    match cs.get? i with
    | none => none
    | some c =>
      match rest with
      | [] => some c
      | _ =>
        match c with
        | RNode.relem _ ch => nodeAtPos f ch rest
        | RNode.rtext _ => none

/-!
Fresh client render model.  The rendering engine is out of the spec's
scope; what the spec fixes (sections 4.4 and 8) is that the hydrated DOM is
equivalent to what a fresh client-side render of the same components would
produce: shadow hosts get a real shadow root holding their render output
(with `<slot>` elements left in place, fallback children kept), their light
DOM stays outside the shadow root; non-shadow hosts get their render output
as children, with each `<slot>` position spliced with the host's light DOM
(or its fallback when no light DOM is present).
-/

/-- A component table: tag name to (shadow encapsulation, render tree). -/
def Comps := List (String × (Bool × List RNode))

/-- Raw markup view of a render-tree node (no annotations yet). -/
def rtToV : Nat → RNode → VNode
  | 0, _ => VNode.text ""
  | f+1, RNode.relem tag ch => VNode.elem tag [] (ch.map (rtToV f))
  | _, RNode.rtext s => VNode.text s

/-- Modelled from the spec: slot distribution in a non-shadow host — each
`<slot>` position in the rendered forest is replaced by the host's light
DOM (or by the slot's fallback children when the light DOM is empty).
Component boundaries are not descended into. -/
def spliceSlots (comps : Comps) (light : List VNode) : Nat → List VNode → List VNode
  | 0, _ => []
  | _, [] => []
  | f+1, n :: ns =>
    (match n with
     | VNode.elem t a cs =>
       if t == "slot" then (if light.isEmpty then cs else light)
       else if (comps.lookup t).isSome then [VNode.elem t a cs]
       else [VNode.elem t a (spliceSlots comps light f cs)]
     | other => [other]) ++ spliceSlots comps light f ns

/-- Modelled from the spec: a fresh client-side render of a markup tree.
Elements whose tag is a component are materialized: a shadow host becomes
the host element with a `mock:shadow-root` holding its rendered tree
followed by its (recursively rendered) light DOM; a non-shadow host becomes
the host element with its rendered tree, slots spliced with its light DOM.
Non-component nodes are kept as parsed. -/
def instantiate (comps : Comps) : Nat → VNode → VNode
  | 0, v => v
  | f+1, VNode.elem t a cs =>
    match comps.lookup t with
    | some (true, rt) =>
      VNode.elem t []
        (VNode.elem "mock:shadow-root" [] ((rt.map (rtToV 100)).map (instantiate comps f)) ::
          cs.map (instantiate comps f))
    | some (false, rt) =>
      VNode.elem t []
        ((spliceSlots comps cs 100 (rt.map (rtToV 100))).map (instantiate comps f))
    | none => VNode.elem t a (cs.map (instantiate comps f))
  | _+1, v => v

/-- Attribute names that are hydration bookkeeping: the hydrated class and
the annotator-added ids and slot names. -/
def bookkeepingAttr (k : String) : Bool :=
  k == "class" || k == "s-id" || k == "c-id" || k == "s-sn" || k == "hidden"

/-- Visible structure of a forest: marker comments dropped, bookkeeping
attributes dropped, everything else (tags, child order, text content,
ordinary comment content) kept. -/
def visibleL : Nat → List VNode → List VNode
  | 0, _ => []
  | _, [] => []
  | f+1, n :: ns =>
    (match n with
     | VNode.comment s => if isMarkerText s then [] else [VNode.comment s]
     | VNode.elem t a cs =>
       [VNode.elem t (a.filter (fun p => !bookkeepingAttr p.1)) (visibleL f cs)]
     | other => [other]) ++ visibleL f ns

/-- Visible structure of a single tree. -/
def visibleV (v : VNode) : VNode :=
  match visibleL 100 [v] with
  | [r] => r
  | _ => VNode.text ""

/-- Component table for scenario "no slot". -/
def comps_noSlot : Comps := [("cmp-a", (true, rt_noSlot_cmpA))]

/-- Component table for scenario "text slot". -/
def comps_textSlot : Comps :=
  [("cmp-a", (false, rt_textSlot_cmpA)), ("cmp-b", (true, rt_textSlot_cmpB))]

/-- Component table for scenario "element header". -/
def comps_elemHeader : Comps :=
  [("cmp-a", (false, rt_plain_cmpA)), ("cmp-b", (true, rt_elemHeader_cmpB))]

/-- Component table for scenario "text header". -/
def comps_textHeader : Comps :=
  [("cmp-a", (false, rt_plain_cmpA)), ("cmp-b", (true, rt_textHeader_cmpB))]

/-- Component table for scenario "text slot, header". -/
def comps_textSlotHeader : Comps :=
  [("cmp-a", (false, rt_textSlot_cmpA)), ("cmp-b", (true, rt_elemHeader_cmpB))]

/-- Component table for scenario "shadow header text, shadow footer". -/
def comps_headerTextFooter : Comps :=
  [("cmp-a", (false, rt_plain_cmpA)), ("cmp-b", (true, rt_headerTextFooter_cmpB))]

/-- Component table for scenario "text slot, header/footer". -/
def comps_headerFooter : Comps :=
  [("cmp-a", (false, rt_textSlot_cmpA)), ("cmp-b", (true, rt_headerFooter_cmpB))]

/-- Component table for scenario "root level". -/
def comps_rootLevel : Comps :=
  [("cmp-a", (false, rt_rootLevel_cmpA)), ("cmp-b", (true, rt_rootLevel_cmpB)),
   ("cmp-c", (true, rt_rootLevel_cmpC))]

/-- Component table for scenario "preserves all nodes". -/
def comps_preserves : Comps := [("cmp-a", (true, rt_preserves_cmpA))]

/-- Raw input markup of scenario "root level" (whitespace-only text
dropped), from the suite's `html` argument. -/
def rawInput_rootLevel : VNode :=
  el "cmp-a" []
    [el "cmp-b" [] [txt "cmp-b-top-text", el "cmp-c" [] []]]

/-- Raw input markup of scenario "preserves all nodes", from the suite's
`html` argument. -/
def rawInput_preserves : VNode :=
  el "cmp-a" []
    [txt "A text node", com " a comment ", el "div" [] [txt "An element"],
     com " another comment ", txt "Another text node"]

/-- Raw input markup of the seven scenarios whose document is a bare
`<cmp-a></cmp-a>`. -/
def rawInput_bare : VNode := el "cmp-a" [] []

/-- Fresh client render of a scenario: instantiate the input markup against
the component table. -/
def freshRender (comps : Comps) (raw : VNode) : VNode := instantiate comps 20 raw

/-!
Claim-specific observations on the embedded trees.
-/

/-- No `t.`, `c.` or `o.` marker comment anywhere in the tree. -/
def noResidualTCO (v : VNode) : Bool :=
  (allComments 100 [v]).all (fun s =>
    !(strStartsWith s "t." || strStartsWith s "c." || strStartsWith s "o."))

/-- Every `s.` marker is terminal, and every `o.` marker other than the
literal `o.0.2` is terminal. -/
def terminalMarkersOk (v : VNode) : Bool :=
  (allComments 100 [v]).all (fun s =>
    (!(strStartsWith s "s.") || endsWithDot s) &&
    (!(strStartsWith s "o.") || s == "o.0.2" || endsWithDot s))

/-- Sibling suffix after the text node with the given content. -/
def afterText (t : String) : List VNode → List VNode
  | [] => []
  | VNode.text s :: ns => if s == t then ns else afterText t ns
  | _ :: ns => afterText t ns

/-- Sibling walk for marker placement: every text node whose content is in
`mt` must have a `t.` marker comment as its immediate previous sibling, and
every comment whose content is in `mc` must have a `c.` marker comment as
its immediate previous sibling; recurses into element children. -/
def markedSib (mt mc : List String) : Nat → Option VNode → List VNode → Bool
  | 0, _, _ => false
  | _, _, [] => true
  | f+1, prev, n :: ns =>
    (match n with
     | VNode.text s =>
       !(mt.contains s) ||
       (match prev with
        | some (VNode.comment c) => strStartsWith c "t."
        | _ => false)
     | VNode.comment s =>
       !(mc.contains s) ||
       (match prev with
        | some (VNode.comment c) => strStartsWith c "c."
        | _ => false)
     | _ => true) &&
    (match n with
     | VNode.elem _ _ cs => markedSib mt mc f none cs
     | _ => true) &&
    markedSib mt mc f (some n) ns

/-- Marker-precedence check on a whole tree. -/
def markedOk (mt mc : List String) (v : VNode) : Bool := markedSib mt mc 100 none [v]

/-- Comment texts among a list of sibling nodes. -/
def directComments (cs : List VNode) : List String :=
  cs.filterMap (fun c => match c with | VNode.comment s => some s | _ => none)

/-- True when the node is the serialized shadow root element. -/
def isShadowRootChild (c : VNode) : Bool :=
  match c with
  | VNode.elem t _ _ => t == "mock:shadow-root"
  | _ => false

/-- Root-marker policy on a client-hydrated tree: a host element (one with
`class="hydrated"`) that has a shadow root has no `r.` comment among its
direct children, while a host element without a shadow root keeps an `r.`
comment among its direct children. -/
def hostRootMarkerOk : Nat → List VNode → Bool
  | 0, _ => false
  | _, [] => true
  | f+1, n :: ns =>
    (match n with
     | VNode.elem _ a cs =>
       (if a.contains ("class", "hydrated") then
          (if cs.any isShadowRootChild then
             (directComments cs).all (fun s => !strStartsWith s "r.")
           else (directComments cs).any (fun s => strStartsWith s "r."))
        else true) &&
       hostRootMarkerOk f cs
     | _ => true) &&
    hostRootMarkerOk f ns

/-- On a server-annotated tree, every host (element with `s-id`) has its
`r.{hostId}` marker as a direct child. -/
def serverRootMarkerOk : Nat → List VNode → Bool
  | 0, _ => false
  | _, [] => true
  | f+1, n :: ns =>
    (match n with
     | VNode.elem _ a cs =>
       (match a.lookup "s-id" with
        | some sid => (directComments cs).contains ("r." ++ sid)
        | none => true) &&
       serverRootMarkerOk f cs
     | _ => true) &&
    serverRootMarkerOk f ns

/-- Light-DOM children of a host element in a client-hydrated tree: its
children with the shadow root removed, reduced to visible structure. -/
def lightChildren (v : VNode) : List VNode :=
  match v with
  | VNode.elem _ _ cs => visibleL 100 (cs.filter (fun c => !isShadowRootChild c))
  | _ => []

/-- Children of the shadow root of a host element, if present. -/
def shadowChildren (v : VNode) : Option (List VNode) :=
  match v with
  | VNode.elem _ _ cs =>
    (cs.find? isShadowRootChild).bind (fun c =>
      match c with
      | VNode.elem _ _ scs => some scs
      | _ => none)
  | _ => none

/-!
Theorems, one per claim of the specification.
-/

/-- C1.  Round-trip identity over the hydration suite: for each scenario,
the visible structure of the client-hydrated tree (tags, attributes
excluding bookkeeping ones, text content, comment content excluding marker
comments) equals a fresh client-side render of the same components on the
same input markup. -/
theorem round_trip_identity :
    visibleV clientHydrated_noSlot = freshRender comps_noSlot rawInput_bare ∧
    visibleV clientHydrated_textSlot = freshRender comps_textSlot rawInput_bare ∧
    visibleV clientHydrated_elemHeader = freshRender comps_elemHeader rawInput_bare ∧
    visibleV clientHydrated_textHeader = freshRender comps_textHeader rawInput_bare ∧
    visibleV clientHydrated_textSlotHeader = freshRender comps_textSlotHeader rawInput_bare ∧
    visibleV clientHydrated_headerTextFooter = freshRender comps_headerTextFooter rawInput_bare ∧
    visibleV clientHydrated_headerFooter = freshRender comps_headerFooter rawInput_bare ∧
    visibleV clientHydrated_rootLevel = freshRender comps_rootLevel rawInput_rootLevel ∧
    visibleV clientHydrated_preserves = freshRender comps_preserves rawInput_preserves :=
  ⟨rfl, rfl, rfl, rfl, rfl, rfl, rfl, rfl, rfl⟩

/-- C2 counterexample.  In the text-slot scenario the annotated server
output does not bracket the text `light-dom` with one marker before and one
after: the text node is the last child of `cmp-b`, so no marker follows it
(both the `o.` and the `s.` marker precede it). -/
theorem textSlot_markers_not_bracketing :
    childListOf serverHydrated_textSlot "cmp-b" =
      some [com "r.2", com "o.1.1.", com "s.2.0.0.0.", com "t.1.1.1.0", txt "light-dom"] ∧
    afterText "light-dom"
      [com "r.2", com "o.1.1.", com "s.2.0.0.0.", com "t.1.1.1.0", txt "light-dom"] = [] :=
  ⟨rfl, rfl⟩

/-- C2 amended.  In the text-slot scenario the annotated server output
places the `o.` and `s.` markers both immediately before the text node
`light-dom` inside `cmp-b` (in the order `o.1.1.`, `s.2.0.0.0.`, then the
`t.` marker, then the text), and the client-hydrated output shows
`light-dom` as a direct child of `cmp-b` with a real shadow root containing
only `<slot></slot>`. -/
theorem textSlot_relocation_markers :
    childListOf serverHydrated_textSlot "cmp-b" =
      some [com "r.2", com "o.1.1.", com "s.2.0.0.0.", com "t.1.1.1.0", txt "light-dom"] ∧
    findElem 100 "cmp-b" [clientHydrated_textSlot] =
      some (el "cmp-b" [("class", "hydrated")]
        [el "mock:shadow-root" [] [el "slot" [] []], txt "light-dom"]) :=
  ⟨rfl, rfl⟩

/-- C3.  Marker erasure: after reconciliation, no `t.`, `c.` or `o.` marker
comment remains anywhere in any of the nine client-hydrated trees. -/
theorem markers_erased_after_reconciliation :
    allClientTrees.all noResidualTCO = true := rfl

/-- C4 counterexample.  The server-annotated root-level scenario contains
the marker comment `o.0.2`, which is an `o.` marker with no trailing dot:
not every `o.` marker is emitted in terminal form. -/
theorem o_marker_without_terminal_dot :
    (allComments 100 [serverHydrated_rootLevel]).contains "o.0.2" = true ∧
    strStartsWith "o.0.2" "o." = true ∧
    endsWithDot "o.0.2" = false :=
  ⟨rfl, rfl, rfl⟩

/-- C4 amended.  Across every annotated tree of the suite, every `s.`
marker ends with a trailing dot, and every `o.` marker ends with a trailing
dot except the `o.0.2` marker of the root-level scenario (the original
location of the relocated `cmp-b` host). -/
theorem terminal_markers_amended :
    allServerTrees.all terminalMarkersOk = true := rfl

/-- C5.  In every annotated tree of the suite, every text node produced by
a render call or slotted directly into a host is immediately preceded by a
`t.` marker comment, and every preserved such comment node is immediately
preceded by a `c.` marker comment (text and comment nodes carry no
attributes by the grammar of `VNode`). -/
theorem rendered_text_comment_markers :
    markedOk ["Hello"] [] serverHydrated_noSlot = true ∧
    markedOk ["light-dom"] [] serverHydrated_textSlot = true ∧
    markedOk [] [] serverHydrated_elemHeader = true ∧
    markedOk ["shadow-header"] [] serverHydrated_textHeader = true ∧
    markedOk ["light-dom"] [] serverHydrated_textSlotHeader = true ∧
    markedOk ["shadow-header", "shadow-footer"] [] serverHydrated_headerTextFooter = true ∧
    markedOk ["light-dom"] [] serverHydrated_headerFooter = true ∧
    markedOk ["cmp-b-top-text", "cmp-c"] [] serverHydrated_rootLevel = true ∧
    markedOk ["Shadow Content", "A text node", "Another text node"]
      [" a comment ", " another comment "] serverHydrated_preserves = true :=
  ⟨rfl, rfl, rfl, rfl, rfl, rfl, rfl, rfl, rfl⟩

/-- C6.  Host id allocation: in every annotated tree of the suite the host
ids read in document order are exactly 1, 2, ..., n, and every element
carrying an `s-id` also carries `class="hydrated"`. -/
theorem host_id_allocation :
    allServerTrees.map sIdList =
      [sIdSeq 1, sIdSeq 2, sIdSeq 2, sIdSeq 2, sIdSeq 2, sIdSeq 2, sIdSeq 2,
       sIdSeq 3, sIdSeq 1] ∧
    allServerTrees.all hostsHydratedOk = true :=
  ⟨rfl, rfl⟩

/-- C7 counterexample.  The `c-id` of the footer element in the
header/footer scenario is `2.2.0.2`, while the footer sits at sibling-index
path [2] directly below its host's root, whose per-level path string (host
id followed by the per-level render-tree indices) is `2.2`: the `c-id` is
not the per-level path string. -/
theorem cid_not_per_level_path :
    findCId serverHydrated_headerFooter "footer" = some "2.2.0.2" ∧
    nodeAtPos 100 rt_headerFooter_cmpB [2] = some (RNode.relem "footer" []) ∧
    specLevelPath 2 [2] = "2.2" ∧
    ("2.2.0.2" : String) ≠ "2.2" :=
  ⟨rfl, rfl, rfl, by decide⟩

/-- C7 amended.  The `c-id` of a rendered descendant element (and the path
of every `t.`/`s.` annotation) is derived deterministically from the render
tree as host id, depth-first ordinal, depth and sibling index, dot-joined:
the addresser reproduces every in-host id appearing in the annotated
markup. -/
theorem cid_scheme_amended :
    annEntries 1 rt_noSlot_cmpA = [("p", "1.0.0.0"), ("t:Hello", "1.1.1.0")] ∧
    findCId serverHydrated_noSlot "p" = some "1.0.0.0" ∧
    annEntries 2 rt_headerFooter_cmpB =
      [("header", "2.0.0.0"), ("slot", "2.1.0.1"), ("footer", "2.2.0.2")] ∧
    findCId serverHydrated_headerFooter "header" = some "2.0.0.0" ∧
    findCId serverHydrated_headerFooter "footer" = some "2.2.0.2" ∧
    (allComments 100 [serverHydrated_headerFooter]).contains "s.2.1.0.1." = true ∧
    annEntries 2 rt_rootLevel_cmpB = [("section", "2.0.0.0"), ("slot", "2.1.1.0")] ∧
    findCId serverHydrated_rootLevel "section" = some "2.0.0.0" ∧
    (allComments 100 [serverHydrated_rootLevel]).contains "s.2.1.1.0." = true ∧
    annEntries 3 rt_rootLevel_cmpC = [("article", "3.0.0.0"), ("t:cmp-c", "3.1.1.0")] ∧
    findCId serverHydrated_rootLevel "article" = some "3.0.0.0" ∧
    (allComments 100 [serverHydrated_rootLevel]).contains "t.3.1.1.0" = true ∧
    annEntries 2 rt_headerTextFooter_cmpB =
      [("t:shadow-header", "2.0.0.0"), ("footer", "2.1.0.1"), ("t:shadow-footer", "2.2.1.0")] ∧
    findCId serverHydrated_headerTextFooter "footer" = some "2.1.0.1" ∧
    (allComments 100 [serverHydrated_headerTextFooter]).contains "t.2.2.1.0" = true :=
  ⟨rfl, rfl, rfl, rfl, rfl, rfl, rfl, rfl, rfl, rfl, rfl, rfl, rfl, rfl, rfl⟩

/-- C8.  Slot fallback scenario: the server output contains a `slot-fb`
placeholder holding the fallback text, the client-hydrated tree has a real
`<slot>` with that fallback inside the shadow root and no `slot-fb` left,
and the light-DOM siblings (text, comments, element) are preserved outside
the shadow root in exactly the order of the original input markup. -/
theorem slot_fallback_preserves_nodes :
    childListOf serverHydrated_preserves "slot-fb" =
      some [com "t.1.1.1.0", txt "Shadow Content"] ∧
    shadowChildren clientHydrated_preserves = some [el "slot" [] [txt "Shadow Content"]] ∧
    findElem 100 "slot-fb" [clientHydrated_preserves] = none ∧
    lightChildren clientHydrated_preserves =
      [txt "A text node", com " a comment ", el "div" [] [txt "An element"],
       com " another comment ", txt "Another text node"] ∧
    rawInput_preserves =
      el "cmp-a" []
        [txt "A text node", com " a comment ", el "div" [] [txt "An element"],
         com " another comment ", txt "Another text node"] :=
  ⟨rfl, rfl, rfl, rfl, rfl⟩

/-- C9.  Idempotent addressing: the Path Addresser invoked a second time on
the same unmoved node of the same render tree — with the allocator counters
reset at the start of the invocation, as section 4.5 prescribes — yields
the identical path string as the first invocation. -/
theorem path_addresser_idempotent (s : AddrState) (rt : List RNode) (pos : List Nat) :
    pathAt (resetAddr s) rt pos = pathAt initAddr rt pos := rfl

/-- C10.  Root-marker retention: in every client-hydrated tree of the
suite, a host with a shadow root has no `r.` marker left among its
children, while a non-shadow host keeps its `r.` marker as a direct child;
on the server side every host had its `r.{hostId}` marker as a direct
child. -/
theorem root_marker_retention :
    allClientTrees.all (fun t => hostRootMarkerOk 100 [t]) = true ∧
    allServerTrees.all (fun t => serverRootMarkerOk 100 [t]) = true :=
  ⟨rfl, rfl⟩
